import Mathlib

set_option allowUnsafeReducibility true
attribute [local semireducible] Rat.add Rat.mul Rat.sub Rat.div Rat.inv Rat.neg Rat.normalize
set_option maxRecDepth 4000000
set_option maxHeartbeats 8000000

/-!
Verification of the palette-selection and slot-assignment core of the
`themerator` repository, following `src/themerator.py` (class `Theme`).

Colours are integer RGB triples.  The Python code compares real-valued
similarities; every threshold probed by the binary search is a dyadic
rational, and every comparison in the source is of the form
`1 - sqrt(ssd)/sqrt(195075) > t` or a plain rational comparison, so the
whole algorithm is embedded exactly over `ℚ` (the square-root comparison
is decided by squaring; `195075 = 3 * 255 ^ 2`).
-/

namespace Themerator

/-- An RGB colour triple, as produced by the colour-quantization collaborator. -/
abbrev Color := ℤ × ℤ × ℤ

/-- Sum of the three channels (`sum(colour)` in the source). -/
def colorSum (c : Color) : ℤ := c.1 + c.2.1 + c.2.2

/-- Sum of squared channel differences, `sum([(a - b) ** 2 for a, b in zip(c1, c2)])`. -/
def ssd (c1 c2 : Color) : ℤ :=
  (c1.1 - c2.1) ^ 2 + (c1.2.1 - c2.2.1) ^ 2 + (c1.2.2 - c2.2.2) ^ 2

/-- Decides `get_similarity(c1, c2) > t`, i.e.
`1 - sqrt(ssd c1 c2) / sqrt(3 * 255 ^ 2) > t`, exactly over `ℚ`:
squaring both sides of `sqrt (ssd / 195075) < 1 - t` (both sides nonnegative
when the comparison can hold) gives the equivalent rational comparison below. -/
def similarity_gt (c1 c2 : Color) (t : ℚ) : Bool :=
  decide (0 < 1 - t) && decide ((ssd c1 c2 : ℚ) < (1 - t) ^ 2 * 195075)

/-- Decides `(255 - abs(sum(colour) - sum(background)) / 3) / 255 > bgt`
from `filter_by_similarity`. -/
def background_gt (colour background : Color) (bgt : ℚ) : Bool :=
  decide ((255 - ((|colorSum colour - colorSum background| : ℤ) : ℚ) / 3) / 255 > bgt)

/-- The `for colour in colours` loop of `filter_by_similarity`: keep `chosen`
(initially `[background]`), skipping any colour that is too similar to a chosen
colour or whose brightness is too close to the background's. -/
def fbsLoop (background : Color) (t bgt : ℚ) : List Color → List Color → List Color
  | chosen, [] => chosen
  | chosen, colour :: rest =>
    if (decide (chosen ≠ []) && chosen.any fun choice => similarity_gt colour choice t)
        || background_gt colour background bgt then
      fbsLoop background t bgt chosen rest
    else
      fbsLoop background t bgt (chosen ++ [colour]) rest

/-- The method `Theme.filter_by_similarity(colours, similarity_threshold)`:
the first colour is the background and is always kept; each later colour is
dropped when it is too similar to an already-kept colour or too close in
brightness to the background. -/
def filter_by_similarity (colours : List Color) (similarity_threshold : ℚ) : List Color :=
  match colours with
  | [] => []
  | background :: rest =>
    let background_similarity_threshold :=
      max (1 - (1 - similarity_threshold) * 2) similarity_threshold
    fbsLoop background similarity_threshold background_similarity_threshold
      [background] rest

/-- Stable insertion of one element into a list sorted by `key` (ties keep the
existing element first, matching Python's stable `sorted`). -/
def insertByKey (key : Color → ℤ) (a : Color) : List Color → List Color
  | [] => [a]
  | b :: bs => if key a ≤ key b then a :: b :: bs else b :: insertByKey key a bs

/-- Stable ascending sort by an integer key; for a total preorder this agrees
with Python's stable `sorted(colours, key=...)`. -/
def sortByKey (key : Color → ℤ) : List Color → List Color
  | [] => []
  | a :: as => insertByKey key a (sortByKey key as)

/-- The sort at the top of `filter_palette`:
`sorted(colours, key=lambda x: sum(x) * (1 if self.dark else -1))`. -/
def sort_for_tone (dark : Bool) (colours : List Color) : List Color :=
  sortByKey (fun x => colorSum x * (if dark then 1 else -1)) colours

/-- One run of the `for _ in range(max_retries)` binary-search loop of
`filter_palette`, carrying `left`, `right` and the previous round's
`candidates`.  When the fuel runs out the source inspects the last round's
count: below `8` it raises `ValueError`, otherwise it logs a warning (the
`Bool` component `true`) and returns the last candidates. -/
def filter_palette_loop (colours : List Color) :
    ℕ → ℚ → ℚ → List Color → Except String (List Color × Bool)
  | 0, _, _, candidates =>
    if candidates.length < 8 then
      let n := candidates.length
      .error s!"can only find {n} (< 8) distinct colours"
    else
      .ok (candidates, true)
  | fuel + 1, left, right, _ =>
    let middle := (left + right) / 2
    let candidates := filter_by_similarity colours middle
    if candidates.length < 16 then
      filter_palette_loop colours fuel middle right candidates
    else if candidates.length > 16 then
      filter_palette_loop colours fuel left middle candidates
    else
      .ok (candidates, false)

/-- The method `Theme.filter_palette(colours, max_retries=50)`: sort by
brightness for the tone, then binary-search a similarity threshold for up to
50 rounds.  `.ok (l, false)` is an exact hit of 16, `.ok (l, true)` is the
degraded return with a logged warning, `.error` is the raised `ValueError`. -/
def filter_palette (colours : List Color) (dark : Bool) : Except String (List Color × Bool) :=
  filter_palette_loop (sort_for_tone dark colours) 50 0 1 []

/-- Ghost observer of `filter_palette`: the list of `middle` thresholds the
binary search actually probes, in order (same control flow as
`filter_palette_loop`). -/
def filter_palette_probes (colours : List Color) : ℕ → ℚ → ℚ → List ℚ
  | 0, _, _ => []
  | fuel + 1, left, right =>
    let middle := (left + right) / 2
    let candidates := filter_by_similarity colours middle
    middle ::
      (if candidates.length < 16 then
        filter_palette_probes colours fuel middle right
      else if candidates.length > 16 then
        filter_palette_probes colours fuel left middle
      else
        [])

/-- The thresholds probed by `filter_palette colours dark`. -/
def probed_thresholds (colours : List Color) (dark : Bool) : List ℚ :=
  filter_palette_probes (sort_for_tone dark colours) 50 0 1

/-! The slot assigner, `Theme.assign_palette` and `Theme.prominence`. -/

/-- The method `Theme.prominence(rgb, highlights)`: `none` models the raised
`ValueError` for a bad highlight selection and the `ValueError` Python's `min`
raises on an empty list (which happens when no channel remains undesired). -/
def prominence (rgb : Color) (highlights : List String) : Option ℤ :=
  if highlights.any fun highlight => decide (highlight ∉ ["red", "green", "blue"]) then
    none
  else
    let channels : List (ℤ × String) := [(rgb.1, "red"), (rgb.2.1, "green"), (rgb.2.2, "blue")]
    let desired := (channels.filter fun p => decide (p.2 ∈ highlights)).map Prod.fst
    let undesired := (channels.filter fun p => decide (p.2 ∉ highlights)).map Prod.fst
    (desired.flatMap fun d => undesired.map fun u => d - u).min?

/-- The numeric value of `prominence` when it does not raise (used as a sort
key inside `assign_palette`, where every call site passes a valid highlight
list so the `0` default is never the result; the lemmas `prominence_red` etc.
below verify this against `prominence`). -/
def prominenceVal (rgb : Color) (highlights : List String) : ℤ :=
  (prominence rgb highlights).getD 0

/-- The `metrics` dictionary of `assign_palette`: `none` models the `KeyError`
for a name outside the eight entries. -/
def metrics (name : String) : Option (Color → ℤ) :=
  match name with
  | "dark" => some fun colour => -(colorSum colour)
  | "light" => some fun colour => colorSum colour
  | "red" => some fun colour => prominenceVal colour ["red"]
  | "green" => some fun colour => prominenceVal colour ["green"]
  | "blue" => some fun colour => prominenceVal colour ["blue"]
  | "cyan" => some fun colour => prominenceVal colour ["green", "blue"]
  | "magenta" => some fun colour => prominenceVal colour ["red", "blue"]
  | "yellow" => some fun colour => prominenceVal colour ["red", "green"]
  | _ => none

/-- The `order` dictionary of `assign_palette`, keyed by the tone. -/
def assignment_order (tone : String) : List (String × String) :=
  if tone = "dark" then
    [("color00", "dark"), ("color07", "light"), ("color01", "red"), ("color02", "green"),
     ("color04", "blue"), ("color03", "yellow"), ("color05", "magenta"), ("color06", "cyan"),
     ("color18", "dark"), ("color19", "dark"), ("color20", "dark"), ("color21", "dark"),
     ("color15", "dark"), ("color16", "dark"), ("color17", "dark"), ("color08", "dark")]
  else
    [("color00", "light"), ("color07", "dark"), ("color01", "red"), ("color02", "green"),
     ("color04", "blue"), ("color03", "yellow"), ("color05", "magenta"), ("color06", "cyan"),
     ("color18", "light"), ("color19", "light"), ("color20", "light"), ("color21", "light"),
     ("color15", "light"), ("color16", "light"), ("color17", "light"), ("color08", "light")]

/-- A `reuse_palette` entry: a bare one-element list in the source selects a
single already-assigned slot to copy; a `(options, metric)` pair selects the
best of several already-assigned slots by a metric. -/
inductive ReuseRule where
  | copy (label : String)
  | best (options : List String) (metric : String)
deriving DecidableEq

/-- The `reuse_palette` dictionary of `assign_palette`; `none` models the
`KeyError` for a label with no entry (`color01`..`color07` have none). -/
def reuse_palette (label : String) : Option ReuseRule :=
  match label with
  | "color08" =>
    some (.best ["color01", "color02", "color03", "color04", "color05", "color06"] "dark")
  | "color18" =>
    some (.best ["color01", "color02", "color03", "color04", "color05", "color06"] "light")
  | "color19" => some (.copy "color04")
  | "color20" => some (.copy "color07")
  | "color21" => some (.copy "color00")
  | "color15" => some (.copy "color01")
  | "color16" => some (.copy "color06")
  | "color17" => some (.copy "color02")
  | _ => none

/-- The insertion-ordered `designations` dictionary (Python dicts preserve
insertion order). -/
abbrev Designations := List (String × Color)

/-- The inner helper `get_preference` of `assign_palette`: copy one
already-assigned slot, or sort several already-assigned slots by a metric and
take the first.  `none` models a `KeyError`/`IndexError`. -/
def get_preference (designations : Designations) : ReuseRule → Option Color
  | .copy label => designations.lookup label
  | .best options metric_name => do
    let colours ← options.mapM fun option => designations.lookup option
    let f ← metrics metric_name
    (sortByKey f colours).head?

/-- One iteration of the `for label, metric_name in order[tone]` loop of
`assign_palette`: re-sort the remaining working palette by the slot's metric
and pop the last (best-scoring) colour, or fall back to `reuse_palette` when
the working palette is exhausted. -/
def assignStep (designations : Designations) (palette : List Color)
    (label metric_name : String) : Option (Designations × List Color) :=
  match metrics metric_name with
  | none => none
  | some f =>
    let sortedPalette := sortByKey f palette
    match sortedPalette.getLast? with
    | some colour => some (designations ++ [(label, colour)], sortedPalette.dropLast)
    | none =>
      match reuse_palette label with
      | none => none
      | some rule =>
        match get_preference designations rule with
        | none => none
        | some colour => some (designations ++ [(label, colour)], sortedPalette)

/-- The `for label, metric_name in order[tone]` loop itself, threading the
accumulated designations and the shrinking working palette. -/
def assignLoop : Designations × List Color → List (String × String) →
    Option (Designations × List Color)
  | st, [] => some st
  | (designations, palette), (label, metric_name) :: rest =>
    match assignStep designations palette label metric_name with
    | none => none
    | some st2 => assignLoop st2 rest

/-- The method `Theme.assign_palette()`, as a function of the working palette
copy and the tone; `none` models an uncaught `KeyError`. -/
def assign_palette (palette : List Color) (dark : Bool) : Option Designations :=
  let tone := if dark then "dark" else "light"
  (assignLoop ([], palette) (assignment_order tone)).map Prod.fst

/-- The object state an initialised `Theme` carries (its logger and colour
thief play no part in the core). -/
structure ThemeState where
  palette : List Color
  dark : Bool
deriving DecidableEq

/-- The method call `self.assign_palette()` on a `Theme` object: the body
only reads `self.palette` (and copies it) and `self.dark`; it assigns no
attribute, so the object state it leaves behind is returned unchanged. -/
def assign_palette_method (st : ThemeState) : ThemeState × Option Designations :=
  (st, assign_palette st.palette st.dark)

/-! Hex rendering, `Theme._rgb_to_hex` and the decoding in `Theme._render`. -/

/-- Python's `hex(n)[2:]` for a nonnegative integer: lowercase hex digits,
most significant first, `"0"` for zero (`Nat.toDigits 16` matches this). -/
def hexDigits (n : ℕ) : List Char := Nat.toDigits 16 n

/-- The helper `_pad`: left-pad with `"0"` to two characters. -/
def padTwo (s : List Char) : List Char := List.replicate (2 - s.length) '0' ++ s

/-- Python's `separator.join(parts)`. -/
def joinStrings (separator : String) : List String → String
  | [] => ""
  | [s] => s
  | s :: rest => s ++ separator ++ joinStrings separator rest

/-- The static method `Theme._rgb_to_hex(red, green, blue, separator)` (on
channel values in `[0, 256)`, which the source asserts). -/
def rgb_to_hex (red green blue : ℕ) (separator : String) : String :=
  joinStrings separator
    ([red, green, blue].map fun colour => String.mk (padTwo (hexDigits colour)))

/-- The value of one hexadecimal digit character, as `int(s, 16)` reads it. -/
def hexCharVal (c : Char) : ℕ :=
  if '0' ≤ c ∧ c ≤ '9' then c.toNat - 48
  else if 'a' ≤ c ∧ c ≤ 'f' then c.toNat - 87
  else if 'A' ≤ c ∧ c ≤ 'F' then c.toNat - 55
  else 0

/-- Python's `int(s, 16)` on a string of hexadecimal digits (as `_render`
applies to the hex code before extracting channels by shifting and masking). -/
def parseHex (s : String) : ℕ :=
  s.data.foldl (fun acc c => 16 * acc + hexCharVal c) 0

/-! Concrete inputs used by witnesses and counterexamples. -/

/-- The ramp of `n` grey triples `(k, k, k)`, `k = 0 .. n - 1`: pairwise
distinct, spread across brightness. -/
def greyRamp (n : ℕ) : List Color := (List.range n).map fun k => ((k : ℤ), (k : ℤ), (k : ℤ))

/-- Ten pairwise-distinct greys spread across brightness. -/
def tenGreys : List Color := (List.range 10).map fun k => ((25 * k : ℤ), (25 * k : ℤ), (25 * k : ℤ))

/-- Seventeen pairwise-distinct colours: a black background, four far-apart
hub colours, and three satellites at squared distance 2 from each hub. -/
def hubSatellites : List Color :=
  [(0, 0, 0),
   (60, 0, 0), (0, 70, 0), (0, 0, 80), (60, 70, 0),
   (61, 1, 0), (61, 0, 1), (60, 1, 1),
   (1, 71, 0), (1, 70, 1), (0, 71, 1),
   (1, 1, 80), (1, 0, 81), (0, 1, 81),
   (61, 71, 0), (61, 70, 1), (60, 71, 1)]

/-- The eight-colour palette of the spec's scenario in section 8. -/
def spec8 : List Color :=
  [(10, 10, 10), (250, 250, 250), (200, 30, 30), (30, 200, 30),
   (30, 30, 200), (200, 200, 30), (200, 30, 200), (30, 200, 200)]

/-! Lemmas about the stable sort. -/

theorem insertByKey_perm (key : Color → ℤ) (a : Color) (l : List Color) :
    List.Perm (insertByKey key a l) (a :: l) := by
  induction l with
  | nil => rfl
  | cons b bs ih =>
    by_cases h : key a ≤ key b
    · simp [insertByKey, h]
    · simp only [insertByKey, if_neg h]
      exact (ih.cons b).trans (List.Perm.swap a b bs)

theorem sortByKey_perm (key : Color → ℤ) (l : List Color) :
    List.Perm (sortByKey key l) l := by
  induction l with
  | nil => rfl
  | cons a as ih => exact (insertByKey_perm key a (sortByKey key as)).trans (ih.cons a)

theorem sortByKey_length (key : Color → ℤ) (l : List Color) :
    (sortByKey key l).length = l.length :=
  (sortByKey_perm key l).length_eq

theorem sortByKey_mem {key : Color → ℤ} {l : List Color} {x : Color} :
    x ∈ sortByKey key l ↔ x ∈ l :=
  (sortByKey_perm key l).mem_iff

theorem sort_for_tone_mem {dark : Bool} {colours : List Color} {x : Color} :
    x ∈ sort_for_tone dark colours ↔ x ∈ colours :=
  sortByKey_mem

/-! Lemmas about the similarity pass. -/

/-- A colour is always similar to itself above any threshold below 1. -/
theorem similarity_gt_self {t : ℚ} (ht : t < 1) (c : Color) : similarity_gt c c t = true := by
  have h0 : ssd c c = 0 := by simp [ssd]
  have h1 : (0 : ℚ) < 1 - t := by linarith
  simp only [similarity_gt, h0, Bool.and_eq_true, decide_eq_true_eq]
  exact ⟨h1, by positivity⟩

theorem fbsLoop_chosen_mem (background : Color) (t bgt : ℚ) (rest : List Color) :
    ∀ chosen x, x ∈ chosen → x ∈ fbsLoop background t bgt chosen rest := by
  induction rest with
  | nil => intro chosen x hx; simpa [fbsLoop] using hx
  | cons colour rest ih =>
    intro chosen x hx
    simp only [fbsLoop]
    by_cases h :
        ((decide (chosen ≠ []) && chosen.any fun choice => similarity_gt colour choice t)
          || background_gt colour background bgt) = true
    · rw [if_pos h]; exact ih chosen x hx
    · rw [if_neg h]; exact ih (chosen ++ [colour]) x (List.mem_append_left _ hx)

theorem fbsLoop_subset (background : Color) (t bgt : ℚ) (rest : List Color) :
    ∀ chosen x, x ∈ fbsLoop background t bgt chosen rest → x ∈ chosen ∨ x ∈ rest := by
  induction rest with
  | nil => intro chosen x hx; exact Or.inl (by simpa [fbsLoop] using hx)
  | cons colour rest ih =>
    intro chosen x hx
    simp only [fbsLoop] at hx
    by_cases h :
        ((decide (chosen ≠ []) && chosen.any fun choice => similarity_gt colour choice t)
          || background_gt colour background bgt) = true
    · rw [if_pos h] at hx
      rcases ih chosen x hx with h1 | h1
      · exact Or.inl h1
      · exact Or.inr (List.mem_cons_of_mem _ h1)
    · rw [if_neg h] at hx
      rcases ih (chosen ++ [colour]) x hx with h1 | h1
      · rcases List.mem_append.1 h1 with h2 | h2
        · exact Or.inl h2
        · exact Or.inr (List.mem_cons.2 (Or.inl (List.mem_singleton.1 h2)))
      · exact Or.inr (List.mem_cons_of_mem _ h1)

theorem fbsLoop_nodup (background : Color) {t : ℚ} (ht : t < 1) (bgt : ℚ) (rest : List Color) :
    ∀ chosen, chosen.Nodup → (fbsLoop background t bgt chosen rest).Nodup := by
  induction rest with
  | nil => intro chosen h; simpa [fbsLoop] using h
  | cons colour rest ih =>
    intro chosen hnd
    simp only [fbsLoop]
    by_cases h :
        ((decide (chosen ≠ []) && chosen.any fun choice => similarity_gt colour choice t)
          || background_gt colour background bgt) = true
    · rw [if_pos h]; exact ih chosen hnd
    · rw [if_neg h]
      refine ih (chosen ++ [colour]) ?_
      have hnotmem : colour ∉ chosen := by
        intro hmem
        apply h
        have hne : chosen ≠ [] := by rintro rfl; exact (List.not_mem_nil colour) hmem
        have hany : (chosen.any fun choice => similarity_gt colour choice t) = true :=
          List.any_eq_true.2 ⟨colour, hmem, similarity_gt_self ht colour⟩
        simp [hne, hany]
      simp [List.nodup_append, hnd, hnotmem]

theorem filter_by_similarity_nodup_of_lt_one {t : ℚ} (ht : t < 1) (colours : List Color) :
    (filter_by_similarity colours t).Nodup := by
  cases colours with
  | nil => simp [filter_by_similarity]
  | cons background rest =>
    exact fbsLoop_nodup background ht _ rest [background] (List.nodup_singleton _)

theorem filter_by_similarity_subset {colours : List Color} {t : ℚ} {x : Color}
    (hx : x ∈ filter_by_similarity colours t) : x ∈ colours := by
  cases colours with
  | nil => simp [filter_by_similarity] at hx
  | cons background rest =>
    rcases fbsLoop_subset background t _ rest [background] x hx with h | h
    · exact List.mem_cons.2 (Or.inl (List.mem_singleton.1 h))
    · exact List.mem_cons_of_mem _ h

theorem filter_by_similarity_head {background : Color} {rest : List Color} {t : ℚ} :
    background ∈ filter_by_similarity (background :: rest) t :=
  fbsLoop_chosen_mem background t _ rest [background] background (List.mem_singleton.2 rfl)

/-- A duplicate-free sublist of `colours` has at most as many elements as
`colours` has distinct values. -/
theorem length_le_dedup_of_nodup {l m : List Color} (hnd : l.Nodup) (hsub : ∀ x ∈ l, x ∈ m) :
    l.length ≤ m.dedup.length := by
  have h1 : l.toFinset.card = l.length := List.toFinset_card_of_nodup hnd
  have h2 : l.toFinset ⊆ m.toFinset := fun x hx =>
    List.mem_toFinset.2 (hsub x (List.mem_toFinset.1 hx))
  have h3 : m.toFinset.card = m.dedup.length := List.card_toFinset m
  calc l.length = l.toFinset.card := h1.symm
    _ ≤ m.toFinset.card := Finset.card_le_card h2
    _ = m.dedup.length := h3

/-! Lemmas about the binary-search loop. -/

/-- Any successful return of the loop is some round's similarity pass at a
threshold strictly between 0 and 1, or the carried-in candidate list. -/
theorem filter_palette_loop_ok (colours : List Color) :
    ∀ (fuel : ℕ) (l r : ℚ) (cand res : List Color) (w : Bool),
      0 ≤ l → l < 1 → 0 < r → r ≤ 1 →
      filter_palette_loop colours fuel l r cand = .ok (res, w) →
      (∃ t, 0 < t ∧ t < 1 ∧ res = filter_by_similarity colours t) ∨ (fuel = 0 ∧ res = cand) := by
  intro fuel
  induction fuel with
  | zero =>
    intro l r cand res w _ _ _ _ heq
    simp only [filter_palette_loop] at heq
    by_cases h : cand.length < 8
    · simp [if_pos h] at heq
    · simp only [if_neg h, Except.ok.injEq, Prod.mk.injEq] at heq
      exact Or.inr ⟨rfl, heq.1.symm⟩
  | succ fuel ih =>
    intro l r cand res w h0l hl1 h0r hr1 heq
    simp only [filter_palette_loop] at heq
    set middle := (l + r) / 2 with hmid
    have hm0 : 0 < middle := by rw [hmid]; linarith
    have hm1 : middle < 1 := by rw [hmid]; linarith
    set candidates := filter_by_similarity colours middle with hcand
    by_cases h16 : candidates.length < 16
    · rw [if_pos h16] at heq
      rcases ih middle r candidates res w (le_of_lt hm0) hm1 h0r hr1 heq with h | h
      · exact Or.inl h
      · exact Or.inl ⟨middle, hm0, hm1, h.2⟩
    · rw [if_neg h16] at heq
      by_cases h16b : candidates.length > 16
      · rw [if_pos h16b] at heq
        rcases ih l middle candidates res w h0l hl1 hm0 (le_of_lt hm1) heq with h | h
        · exact Or.inl h
        · exact Or.inl ⟨middle, hm0, hm1, h.2⟩
      · rw [if_neg h16b] at heq
        simp only [Except.ok.injEq, Prod.mk.injEq] at heq
        exact Or.inl ⟨middle, hm0, hm1, heq.1.symm⟩

/-- Every list a successful `filter_palette` returns is a similarity pass of
the sorted input at some threshold strictly between 0 and 1. -/
theorem filter_palette_ok {colours : List Color} {dark : Bool} {res : List Color} {w : Bool}
    (heq : filter_palette colours dark = .ok (res, w)) :
    ∃ t, 0 < t ∧ t < 1 ∧ res = filter_by_similarity (sort_for_tone dark colours) t := by
  rcases filter_palette_loop_ok (sort_for_tone dark colours) 50 0 1 [] res w
      le_rfl one_pos one_pos le_rfl heq with h | h
  · exact h
  · exact absurd h.1 (by norm_num)

/-- When every round's similarity pass keeps fewer than 8 colours, the loop
always takes the `n < 16` branch and ends in the raised `ValueError`. -/
theorem filter_palette_loop_error (colours : List Color)
    (hsmall : ∀ t : ℚ, 0 < t → t < 1 → (filter_by_similarity colours t).length < 8) :
    ∀ (fuel : ℕ) (l r : ℚ) (cand : List Color),
      0 ≤ l → l < 1 → 0 < r → r ≤ 1 → cand.length < 8 →
      ∃ msg, filter_palette_loop colours fuel l r cand = .error msg := by
  intro fuel
  induction fuel with
  | zero =>
    intro l r cand _ _ _ _ hc
    exact ⟨toString "can only find " ++ toString cand.length ++ toString " (< 8) distinct colours",
      by simp only [filter_palette_loop, if_pos hc]⟩
  | succ fuel ih =>
    intro l r cand h0l hl1 h0r hr1 _
    simp only [filter_palette_loop]
    set middle := (l + r) / 2 with hmid
    have hm0 : 0 < middle := by rw [hmid]; linarith
    have hm1 : middle < 1 := by rw [hmid]; linarith
    set candidates := filter_by_similarity colours middle with hcand
    have hlen : candidates.length < 8 := hsmall middle hm0 hm1
    rw [if_pos (by omega : candidates.length < 16)]
    exact ih middle r candidates (le_of_lt hm0) hm1 h0r hr1 hlen

/-- When the loop's fuel runs out (exactly the case the source reaches after
`max_retries` rounds without an exact hit), the warned return is the carried
candidates, which the probe trace identifies as the final round's similarity
pass. -/
theorem filter_palette_loop_last_probe (colours : List Color) :
    ∀ (fuel : ℕ) (l r : ℚ) (cand res : List Color),
      filter_palette_loop colours fuel l r cand = .ok (res, true) →
      (filter_palette_probes colours fuel l r = [] ∧ res = cand) ∨
      (∃ t, (filter_palette_probes colours fuel l r).getLast? = some t ∧
        res = filter_by_similarity colours t) := by
  intro fuel
  induction fuel with
  | zero =>
    intro l r cand res heq
    simp only [filter_palette_loop] at heq
    by_cases h : cand.length < 8
    · simp [if_pos h] at heq
    · simp only [if_neg h, Except.ok.injEq, Prod.mk.injEq] at heq
      exact Or.inl ⟨rfl, heq.1.symm⟩
  | succ fuel ih =>
    intro l r cand res heq
    simp only [filter_palette_loop] at heq
    simp only [filter_palette_probes]
    set middle := (l + r) / 2 with hmid
    set candidates := filter_by_similarity colours middle with hcand
    by_cases h16 : candidates.length < 16
    · rw [if_pos h16] at heq
      rw [if_pos h16]
      rcases ih middle r candidates res heq with ⟨hnil, hres⟩ | ⟨t, hlast, hres⟩
      · exact Or.inr ⟨middle, by rw [hnil]; rfl, hres⟩
      · refine Or.inr ⟨t, ?_, hres⟩
        rw [List.getLast?_cons, hlast]
        rfl
    · rw [if_neg h16] at heq
      rw [if_neg h16]
      by_cases h16b : candidates.length > 16
      · rw [if_pos h16b] at heq
        rw [if_pos h16b]
        rcases ih l middle candidates res heq with ⟨hnil, hres⟩ | ⟨t, hlast, hres⟩
        · exact Or.inr ⟨middle, by rw [hnil]; rfl, hres⟩
        · refine Or.inr ⟨t, ?_, hres⟩
          rw [List.getLast?_cons, hlast]
          rfl
      · rw [if_neg h16b] at heq
        simp at heq

deriving instance DecidableEq for Except

/-- With any fuel left, the probe trace records at least the first round. -/
theorem filter_palette_probes_succ_ne_nil (colours : List Color) (fuel : ℕ) (l r : ℚ) :
    filter_palette_probes colours (fuel + 1) l r ≠ [] := by
  simp only [filter_palette_probes]
  exact List.cons_ne_nil _ _

/-- Every threshold the loop probes lies strictly between 0 and 1. -/
theorem filter_palette_probes_lt_one (colours : List Color) :
    ∀ (fuel : ℕ) (l r : ℚ), 0 ≤ l → l < 1 → 0 < r → r ≤ 1 →
      ∀ t ∈ filter_palette_probes colours fuel l r, 0 < t ∧ t < 1 := by
  intro fuel
  induction fuel with
  | zero => intro l r _ _ _ _ t ht; simp [filter_palette_probes] at ht
  | succ fuel ih =>
    intro l r h0l hl1 h0r hr1 t ht
    simp only [filter_palette_probes] at ht
    set middle := (l + r) / 2 with hmid
    have hm0 : 0 < middle := by rw [hmid]; linarith
    have hm1 : middle < 1 := by rw [hmid]; linarith
    rcases List.mem_cons.1 ht with rfl | ht
    · exact ⟨hm0, hm1⟩
    · by_cases h16 : (filter_by_similarity colours middle).length < 16
      · rw [if_pos h16] at ht
        exact ih middle r (le_of_lt hm0) hm1 h0r hr1 t ht
      · rw [if_neg h16] at ht
        by_cases h16b : (filter_by_similarity colours middle).length > 16
        · rw [if_pos h16b] at ht
          exact ih l middle h0l hl1 hm0 (le_of_lt hm1) t ht
        · rw [if_neg h16b] at ht
          simp at ht

end Themerator

namespace Themerator

/-! Claim theorems. -/

/-- C2 (amended): whenever `filter_palette` returns a list at all, every
returned colour is an element of the input and the anchor (the first element
after the tone sort, kept as background by the similarity pass) is among the
returned colours; the "exactly 16" part of the claim fails (see the
counterexample), so it is weakened to what the code guarantees. -/
theorem filter_palette_subset_anchor :
    ∀ (colours : List Color) (dark : Bool) (l : List Color) (w : Bool),
      filter_palette colours dark = .ok (l, w) →
      (∀ x ∈ l, x ∈ colours) ∧
      (∀ a, (sort_for_tone dark colours).head? = some a → a ∈ l) := by
  intro colours dark l w heq
  obtain ⟨t, _, _, hres⟩ := filter_palette_ok heq
  constructor
  · intro x hx
    rw [hres] at hx
    exact sort_for_tone_mem.1 (filter_by_similarity_subset hx)
  · intro a ha
    rw [hres]
    cases hsort : sort_for_tone dark colours with
    | nil => rw [hsort] at ha; simp at ha
    | cons b rest =>
      rw [hsort] at ha
      simp only [List.head?_cons, Option.some.injEq] at ha
      subst ha
      exact filter_by_similarity_head

/-- The sixteen colours `filter_palette` finds on the 31-grey ramp (an exact
hit of the target in the seventh round). -/
def ramp31Result : List Color :=
  [(0, 0, 0), (2, 2, 2), (4, 4, 4), (6, 6, 6), (8, 8, 8), (10, 10, 10), (12, 12, 12),
   (14, 14, 14), (16, 16, 16), (18, 18, 18), (20, 20, 20), (22, 22, 22), (24, 24, 24),
   (26, 26, 26), (28, 28, 28), (30, 30, 30)]

/-- Witness for C2's amended theorem at the 31-grey ramp, where the search
does return exactly 16 colours: the brightest returned colour is in the input
and the anchor `(0,0,0)` is retained. -/
theorem filter_palette_subset_anchor_witness :
    ((30, 30, 30) : Color) ∈ greyRamp 31 ∧ ((0, 0, 0) : Color) ∈ ramp31Result :=
  ⟨(filter_palette_subset_anchor (greyRamp 31) true ramp31Result false (by decide)).1
      (30, 30, 30) (by decide),
    (filter_palette_subset_anchor (greyRamp 31) true ramp31Result false (by decide)).2
      (0, 0, 0) (by decide)⟩

/-- Counterexample to C2 as stated: the 30-grey ramp has 30 pairwise-distinct
colours (≥ 16), yet `filter_palette` returns 15 colours, not 16 — no probed
threshold ever yields exactly 16 (the retained count jumps from 15 to 30). -/
theorem filter_palette_thirty_greys_not_sixteen :
    (greyRamp 30).Nodup ∧ (greyRamp 30).length = 30 ∧
    (filter_palette (greyRamp 30) true).toOption.map (fun p => p.1.length) = some 15 :=
  ⟨by decide, by decide, by decide⟩

/-- C3 (amended): when the binary search exhausts its 50 rounds, the source
returns the candidate set computed in the final probed round (with a logged
warning) — not the best feasible set observed across all rounds (see the
counterexample); the claim's concrete instance does hold: on ten
pairwise-distinct greys spread across brightness it returns all 10 with the
warning. -/
theorem filter_palette_final_round :
    (∀ (colours : List Color) (dark : Bool) (res : List Color),
      filter_palette colours dark = .ok (res, true) →
      ∃ t, (probed_thresholds colours dark).getLast? = some t ∧
        res = filter_by_similarity (sort_for_tone dark colours) t) ∧
    tenGreys.Nodup ∧ tenGreys.length = 10 ∧
    (filter_palette tenGreys true).toOption.map (fun p => (p.1.length, p.2)) =
      some (10, true) := by
  refine ⟨?_, by decide, by decide, ?_⟩
  · intro colours dark res heq
    rcases filter_palette_loop_last_probe (sort_for_tone dark colours) 50 0 1 [] res heq with
      ⟨hnil, _⟩ | h
    · exact absurd hnil (filter_palette_probes_succ_ne_nil (sort_for_tone dark colours) 49 0 1)
    · exact h
  · decide

/-- The ten greys `filter_palette` returns (all of them) on `tenGreys`. -/
def tenGreysResult : List Color :=
  [(0, 0, 0), (25, 25, 25), (50, 50, 50), (75, 75, 75), (100, 100, 100),
   (125, 125, 125), (150, 150, 150), (175, 175, 175), (200, 200, 200), (225, 225, 225)]

/-- Witness for C3's amended theorem: on the ten-grey input the warned return
comes from the final probed round, so the probe trace is nonempty and ends in
a recorded threshold. -/
theorem filter_palette_final_round_witness :
    ((probed_thresholds tenGreys true).getLast?).isSome = true := by
  obtain ⟨t, h1, _⟩ := filter_palette_final_round.1 tenGreys true tenGreysResult (by decide)
  rw [h1]
  rfl

/-- Counterexample to C3 as stated: on the 33-grey ramp the search exhausts
its rounds and returns the final round's 11 colours, although the probed
threshold `127/128` yielded 17 colours — a feasible candidate set strictly
closer to the target 16 (|17 - 16| = 1 < 5 = |11 - 16|).  The code keeps no
best-so-far state. -/
theorem filter_palette_ramp33_not_best :
    (filter_palette (greyRamp 33) true).toOption.map (fun p => p.1.length) = some 11 ∧
    ((127 : ℚ) / 128) ∈ probed_thresholds (greyRamp 33) true ∧
    (filter_by_similarity (sort_for_tone true (greyRamp 33)) (127 / 128)).length = 17 :=
  ⟨by decide, by decide, by decide⟩

/-- C4 (amended): a candidate set with fewer than 8 pairwise-distinct colours
always makes `filter_palette` raise the insufficient-colours `ValueError`
after the threshold search is exhausted.  The claim's "only when fewer than 8
survive at every tried threshold" direction fails (see the counterexample):
the error fires exactly when the *final* round keeps fewer than 8, which can
happen even though an earlier tried threshold kept 17. -/
theorem filter_palette_few_distinct_error :
    ∀ (colours : List Color) (dark : Bool), colours.dedup.length < 8 →
      ∃ msg, filter_palette colours dark = .error msg := by
  intro colours dark h8
  apply filter_palette_loop_error (sort_for_tone dark colours) ?_ 50 0 1 []
    le_rfl one_pos one_pos le_rfl (by simp)
  intro t _ ht1
  have hnd := filter_by_similarity_nodup_of_lt_one ht1 (sort_for_tone dark colours)
  have hsub : ∀ x ∈ filter_by_similarity (sort_for_tone dark colours) t, x ∈ colours :=
    fun x hx => sort_for_tone_mem.1 (filter_by_similarity_subset hx)
  exact lt_of_le_of_lt (length_le_dedup_of_nodup hnd hsub) h8

/-- Witness for C4's amended theorem: eight identical black triples (the
spec's own example) raise the error. -/
theorem filter_palette_few_distinct_error_witness :
    (filter_palette (List.replicate 8 ((0, 0, 0) : Color)) true).toOption = none := by
  obtain ⟨msg, h⟩ :=
    filter_palette_few_distinct_error (List.replicate 8 ((0, 0, 0) : Color)) true (by decide)
  rw [h]
  rfl

/-- Counterexample to C4's "only when" direction: `hubSatellites` has 17
pairwise-distinct colours; the tried threshold `511/512` keeps all 17 of them
(≥ 8), and yet `filter_palette` raises the error, because the final round's
count (5) is what the source inspects. -/
theorem filter_palette_error_despite_seventeen :
    hubSatellites.Nodup ∧
    ((511 : ℚ) / 512) ∈ probed_thresholds hubSatellites true ∧
    (filter_by_similarity (sort_for_tone true hubSatellites) (511 / 512)).length = 17 ∧
    filter_palette hubSatellites true = .error "can only find 5 (< 8) distinct colours" :=
  ⟨by decide, by decide, by decide, by decide⟩

/-- C5 (amended): on an empty candidate sequence `filter_by_similarity` does
return an empty list without error, but `filter_palette` itself raises the
insufficient-colours `ValueError` (its final round keeps 0 < 8 colours), so
the claim's "no error" part fails (see the counterexample). -/
theorem filter_empty_behaviour :
    (∀ t : ℚ, filter_by_similarity [] t = []) ∧
    (∀ dark : Bool, ∃ msg, filter_palette [] dark = .error msg) := by
  constructor
  · intro t; rfl
  · intro dark
    apply filter_palette_loop_error (sort_for_tone dark []) ?_ 50 0 1 []
      le_rfl one_pos one_pos le_rfl (by simp)
    intro t _ _
    cases dark <;> simp [sort_for_tone, sortByKey, filter_by_similarity]

/-- Counterexample to C5 as stated: calling `filter_palette` on the empty
sequence raises `ValueError("can only find 0 (< 8) distinct colours")`
instead of returning an empty sequence. -/
theorem filter_palette_empty_raises :
    filter_palette [] true = .error "can only find 0 (< 8) distinct colours" ∧
    filter_palette [] false = .error "can only find 0 (< 8) distinct colours" :=
  ⟨by decide, by decide⟩

/-- C8: at any similarity threshold strictly below 1 the similarity pass
never keeps two equal colours (a colour equal to a kept one has similarity 1,
above any such threshold), every threshold `filter_palette` probes is
strictly below 1, and hence every list `filter_palette` returns is
duplicate-free. -/
theorem filter_by_similarity_no_duplicates :
    (∀ (colours : List Color) (t : ℚ), t < 1 → (filter_by_similarity colours t).Nodup) ∧
    (∀ (colours : List Color) (dark : Bool), ∀ t ∈ probed_thresholds colours dark, t < 1) ∧
    (∀ (colours : List Color) (dark : Bool) (l : List Color) (w : Bool),
      filter_palette colours dark = .ok (l, w) → l.Nodup) := by
  refine ⟨fun colours t ht => filter_by_similarity_nodup_of_lt_one ht colours, ?_, ?_⟩
  · intro colours dark t ht
    exact (filter_palette_probes_lt_one (sort_for_tone dark colours) 50 0 1
      le_rfl one_pos one_pos le_rfl t ht).2
  · intro colours dark l w heq
    obtain ⟨t, _, ht1, hres⟩ := filter_palette_ok heq
    rw [hres]
    exact filter_by_similarity_nodup_of_lt_one ht1 _

/-- Witness for C8: two equal black triples at threshold 1/2 collapse to a
single kept colour, which is duplicate-free. -/
theorem filter_by_similarity_no_duplicates_witness :
    (filter_by_similarity [((0, 0, 0) : Color), (0, 0, 0)] (1 / 2)).Nodup :=
  filter_by_similarity_no_duplicates.1 [(0, 0, 0), (0, 0, 0)] (1 / 2) (by norm_num)

/-- C7: `assign_palette` is a pure function of the ordered palette and the
tone — the embedding is deterministic by construction because the source's
only data structures are insertion-ordered dicts and stable sorts, so two
invocations on equal inputs give equal slot-to-colour mappings. -/
theorem assign_palette_deterministic :
    ∀ (p1 p2 : List Color) (d1 d2 : Bool), p1 = p2 → d1 = d2 →
      assign_palette p1 d1 = assign_palette p2 d2 := by
  intro p1 p2 d1 d2 h1 h2
  rw [h1, h2]

/-- Witness for C7 at the spec's fixed palette with tone dark. -/
theorem assign_palette_deterministic_witness :
    assign_palette spec8 true = assign_palette spec8 true :=
  assign_palette_deterministic spec8 spec8 true true rfl rfl

/-- C9: the `assign_palette` method never mutates the theme's stored palette
(the body works on `self.palette.copy()` and assigns no attribute), so a
repeated call on the unchanged object returns the same designations. -/
theorem assign_palette_preserves_state :
    ∀ st : ThemeState,
      (assign_palette_method st).1.palette = st.palette ∧
      (assign_palette_method ((assign_palette_method st).1)).2 = (assign_palette_method st).2 :=
  fun _ => ⟨rfl, rfl⟩

end Themerator

namespace Themerator

/-! C6: prominence as the minimum over desired/undesired channel pairs. -/

/-- The channel/name pairs `zip(rgb, ["red", "green", "blue"])`. -/
def rgb_channels (rgb : Color) : List (ℤ × String) :=
  [(rgb.1, "red"), (rgb.2.1, "green"), (rgb.2.2, "blue")]

/-- The desired channels of a highlight selection. -/
def desired_channels (rgb : Color) (highlights : List String) : List ℤ :=
  ((rgb_channels rgb).filter fun p => decide (p.2 ∈ highlights)).map Prod.fst

/-- The undesired channels of a highlight selection. -/
def undesired_channels (rgb : Color) (highlights : List String) : List ℤ :=
  ((rgb_channels rgb).filter fun p => decide (p.2 ∉ highlights)).map Prod.fst

/-- All differences `d - u` over pairs of a desired and an undesired channel
(the list `[d - u for d in desired for u in undesired]` of the source). -/
def pair_differences (rgb : Color) (highlights : List String) : List ℤ :=
  (desired_channels rgb highlights).flatMap fun d =>
    (undesired_channels rgb highlights).map fun u => d - u

/-- The body of `prominence` is exactly the minimum of `pair_differences`. -/
theorem prominence_eq_min_pairs (rgb : Color) (highlights : List String) :
    prominence rgb highlights =
      if highlights.any fun highlight => decide (highlight ∉ ["red", "green", "blue"]) then
        none
      else
        (pair_differences rgb highlights).min? := rfl

/-- The minimum of a two-element integer list, characterised. -/
theorem min_two_spec (x y : ℤ) :
    min x y ∈ ([x, y] : List ℤ) ∧ ∀ z ∈ ([x, y] : List ℤ), min x y ≤ z := by
  constructor
  · rcases min_choice x y with h | h <;> simp [h]
  · intro z hz
    simp only [List.mem_cons, List.not_mem_nil, or_false, List.mem_singleton] at hz
    rcases hz with rfl | rfl
    · exact min_le_left _ _
    · exact min_le_right _ _

/-- C6: for every colour and every highlight list of one or two valid hue
names, `prominence` returns exactly the minimum of `d - u` over all pairs of
a desired channel `d` and an undesired channel `u` (it is a member of the
pair-difference list and a lower bound of it); and the claim's two concrete
instances hold. -/
theorem prominence_min_over_pairs :
    (∀ (c : Color) (hs : List String),
      (∀ s ∈ hs, s ∈ (["red", "green", "blue"] : List String)) →
      hs.length = 1 ∨ hs.length = 2 →
      ∃ v, prominence c hs = some v ∧ v ∈ pair_differences c hs ∧
        ∀ x ∈ pair_differences c hs, v ≤ x) ∧
    prominence ((200 : ℤ), (50 : ℤ), (50 : ℤ)) ["red"] = some 150 ∧
    prominence ((50 : ℤ), (50 : ℤ), (200 : ℤ)) ["red"] = some (-150) := by
  refine ⟨?_, by decide, by decide⟩
  intro c hs hmem hlen
  match hs, hlen with
  | [a], _ =>
    have ha := hmem a (by simp)
    simp only [List.mem_cons, List.mem_singleton, List.not_mem_nil, or_false] at ha
    rcases ha with rfl | rfl | rfl
    · exact ⟨_, rfl, (min_two_spec _ _).1, (min_two_spec _ _).2⟩
    · exact ⟨_, rfl, (min_two_spec _ _).1, (min_two_spec _ _).2⟩
    · exact ⟨_, rfl, (min_two_spec _ _).1, (min_two_spec _ _).2⟩
  | [a, b], _ =>
    have ha := hmem a (by simp)
    have hb := hmem b (by simp)
    simp only [List.mem_cons, List.mem_singleton, List.not_mem_nil, or_false] at ha hb
    rcases ha with rfl | rfl | rfl <;> rcases hb with rfl | rfl | rfl <;>
      exact ⟨_, rfl, (min_two_spec _ _).1, (min_two_spec _ _).2⟩

/-- Witness for C6 at a concrete colour and the composite hue cyan. -/
theorem prominence_min_over_pairs_witness :
    (prominence ((10 : ℤ), (20 : ℤ), (30 : ℤ)) ["green", "blue"]).isSome = true := by
  obtain ⟨v, hv, _, _⟩ :=
    prominence_min_over_pairs.1 (10, 20, 30) ["green", "blue"] (by decide) (Or.inr rfl)
  rw [hv]
  rfl

end Themerator

namespace Themerator

/-! C10: the RGB/hex round-trip. -/

/-- A byte's padded hex pair has two characters and decodes to the byte. -/
theorem hex_byte_spec : ∀ n : Fin 256,
    (padTwo (hexDigits n.val)).length = 2 ∧
    (padTwo (hexDigits n.val)).foldl (fun acc c => 16 * acc + hexCharVal c) 0 = n.val := by
  decide

/-- Folding the base-16 accumulator from `a` shifts `a` by the digit count. -/
theorem parse_foldl_shift (l : List Char) : ∀ a : ℕ,
    l.foldl (fun acc c => 16 * acc + hexCharVal c) a =
    a * 16 ^ l.length + l.foldl (fun acc c => 16 * acc + hexCharVal c) 0 := by
  induction l with
  | nil => intro a; simp
  | cons c l ih =>
    intro a
    simp only [List.foldl_cons, List.length_cons]
    rw [ih (16 * a + hexCharVal c), ih (16 * 0 + hexCharVal c)]
    ring

/-- C10: for channel values in `[0, 256)`, `_rgb_to_hex` with empty separator
yields a 6-character hexadecimal string, and decoding it as a base-16 integer
`h` recovers the channels exactly as `(h >>> 16, (h >>> 8) &&& 0xFF, h &&& 0xFF)`. -/
theorem rgb_to_hex_roundtrip :
    ∀ red green blue : ℕ, red < 256 → green < 256 → blue < 256 →
      (rgb_to_hex red green blue "").length = 6 ∧
      parseHex (rgb_to_hex red green blue "") >>> 16 = red ∧
      (parseHex (rgb_to_hex red green blue "") >>> 8) &&& 0xFF = green ∧
      parseHex (rgb_to_hex red green blue "") &&& 0xFF = blue := by
  intro r g b hr hg hb
  obtain ⟨hlr, hvr⟩ := hex_byte_spec ⟨r, hr⟩
  obtain ⟨hlg, hvg⟩ := hex_byte_spec ⟨g, hg⟩
  obtain ⟨hlb, hvb⟩ := hex_byte_spec ⟨b, hb⟩
  have hdata : (rgb_to_hex r g b "").data =
      padTwo (hexDigits r) ++ (padTwo (hexDigits g) ++ padTwo (hexDigits b)) := by
    simp [rgb_to_hex, joinStrings]
  have hval : parseHex (rgb_to_hex r g b "") = (r * 256 + g) * 256 + b := by
    unfold parseHex
    rw [hdata, List.foldl_append, List.foldl_append]
    rw [hvr, parse_foldl_shift (padTwo (hexDigits g)) r, hvg, hlg,
      parse_foldl_shift (padTwo (hexDigits b)) _, hvb, hlb]
    ring
  have hlen : (rgb_to_hex r g b "").length = 6 := by
    show (rgb_to_hex r g b "").data.length = 6
    rw [hdata]
    simp [hlr, hlg, hlb]
  refine ⟨hlen, ?_, ?_, ?_⟩
  · rw [hval, Nat.shiftRight_eq_div_pow]
    have : (r * 256 + g) * 256 + b = (g * 256 + b) + r * 2 ^ 16 := by ring
    rw [this, Nat.add_mul_div_right _ _ (by norm_num : 0 < 2 ^ 16),
      Nat.div_eq_of_lt (by omega), Nat.zero_add]
  · rw [hval, Nat.shiftRight_eq_div_pow]
    have : (r * 256 + g) * 256 + b = b + (r * 256 + g) * 2 ^ 8 := by ring
    rw [this, Nat.add_mul_div_right _ _ (by norm_num : 0 < 2 ^ 8),
      Nat.div_eq_of_lt (by omega), Nat.zero_add]
    rw [show (0xFF : ℕ) = 2 ^ 8 - 1 from rfl, Nat.and_pow_two_sub_one_eq_mod]
    omega
  · rw [hval]
    rw [show (0xFF : ℕ) = 2 ^ 8 - 1 from rfl, Nat.and_pow_two_sub_one_eq_mod]
    omega

/-- Witness for C10 at the channels `(255, 0, 171)` (hex `ff00ab`). -/
theorem rgb_to_hex_roundtrip_witness :
    (rgb_to_hex 255 0 171 "").length = 6 ∧
    parseHex (rgb_to_hex 255 0 171 "") >>> 16 = 255 ∧
    (parseHex (rgb_to_hex 255 0 171 "") >>> 8) &&& 0xFF = 0 ∧
    parseHex (rgb_to_hex 255 0 171 "") &&& 0xFF = 171 :=
  rgb_to_hex_roundtrip 255 0 171 (by decide) (by decide) (by decide)


end Themerator

namespace Themerator

/-! C1: the slot catalog is fully covered for palettes of size at least 8. -/

/-- Sorting a nonempty list gives a nonempty list. -/
theorem sortByKey_ne_nil {key : Color → ℤ} {l : List Color} (h : l ≠ []) :
    sortByKey key l ≠ [] := by
  intro h2
  apply h
  have hlen := sortByKey_length key l
  rw [h2] at hlen
  exact List.length_eq_zero.1 hlen.symm

/-- With a defined metric and a nonempty working palette, an assignment step
pops one colour: it appends one designation and shrinks the palette by one. -/
theorem assignStep_pop (d : Designations) (pal : List Color) (label mname : String)
    (hm : (metrics mname).isSome) (hne : pal ≠ []) :
    ∃ c pal2, assignStep d pal label mname = some (d ++ [(label, c)], pal2) ∧
      pal2.length = pal.length - 1 := by
  obtain ⟨f, hf⟩ := Option.isSome_iff_exists.1 hm
  have hsne : sortByKey f pal ≠ [] := sortByKey_ne_nil hne
  have hlast : (sortByKey f pal).getLast?.isSome := List.getLast?_isSome.2 hsne
  obtain ⟨c, hc⟩ := Option.isSome_iff_exists.1 hlast
  refine ⟨c, (sortByKey f pal).dropLast, ?_, ?_⟩
  · simp only [assignStep, hf, hc]
  · rw [List.length_dropLast, sortByKey_length]

/-- With a defined metric, an assignment step also succeeds on an exhausted
palette provided the slot's reuse rule resolves in the current designations. -/
theorem assignStep_reuse (d : Designations) (pal : List Color) (label mname : String)
    (hm : (metrics mname).isSome)
    (hreuse : ∃ rule c, reuse_palette label = some rule ∧ get_preference d rule = some c) :
    ∃ c pal2, assignStep d pal label mname = some (d ++ [(label, c)], pal2) := by
  obtain ⟨f, hf⟩ := Option.isSome_iff_exists.1 hm
  cases hlast : (sortByKey f pal).getLast? with
  | some c => exact ⟨c, (sortByKey f pal).dropLast, by simp only [assignStep, hf, hlast]⟩
  | none =>
    obtain ⟨rule, c, hrule, hpref⟩ := hreuse
    exact ⟨c, sortByKey f pal, by simp only [assignStep, hf, hlast, hrule, hpref]⟩

/-- A best-of reuse rule over the six accent slots resolves whenever all six
are already designated and its metric is defined. -/
theorem get_preference_best_eight (d : Designations) (mname : String) (f : Color → ℤ)
    (hm : metrics mname = some f)
    (v1 v2 v3 v4 v5 v6 : Color)
    (h1 : d.lookup "color01" = some v1) (h2 : d.lookup "color02" = some v2)
    (h3 : d.lookup "color03" = some v3) (h4 : d.lookup "color04" = some v4)
    (h5 : d.lookup "color05" = some v5) (h6 : d.lookup "color06" = some v6) :
    ∃ c, get_preference d
      (.best ["color01", "color02", "color03", "color04", "color05", "color06"] mname) =
        some c := by
  have hne : sortByKey f [v1, v2, v3, v4, v5, v6] ≠ [] := sortByKey_ne_nil (by simp)
  obtain ⟨c, tl, hct⟩ := List.exists_cons_of_ne_nil hne
  refine ⟨c, ?_⟩
  simp only [get_preference, List.mapM_cons, List.mapM_nil, h1, h2, h3, h4, h5, h6, hm,
    Option.pure_def, Option.bind_eq_bind, Option.some_bind, hct, List.head?_cons]

/-- C1 (amended): for every input palette of size at least 8 and either tone,
`assign_palette` returns a mapping whose domain is exactly the full slot
catalog, in the order table's order — no slot is missing and assignment never
completes partially.  The claim's "size at least 1" bound fails (see the
counterexample): the reuse table has no entry for `color01`..`color07`, so
palettes of sizes 1-7 abort with a `KeyError` instead. -/
theorem assign_palette_covers_catalog :
    ∀ (palette : List Color) (dark : Bool), 8 ≤ palette.length →
      ∃ m, assign_palette palette dark = some m ∧
        m.map Prod.fst =
          (assignment_order (if dark then "dark" else "light")).map Prod.fst := by
  intro palette dark h8
  cases dark with
  | false =>
  obtain ⟨c1, p1, hs1, hl1⟩ := assignStep_pop ([] : Designations) palette "color00" "light" rfl (List.length_pos.1 (by omega))
  obtain ⟨c2, p2, hs2, hl2⟩ := assignStep_pop [("color00", c1)] p1 "color07" "dark" rfl (List.length_pos.1 (by omega))
  obtain ⟨c3, p3, hs3, hl3⟩ := assignStep_pop [("color00", c1), ("color07", c2)] p2 "color01" "red" rfl (List.length_pos.1 (by omega))
  obtain ⟨c4, p4, hs4, hl4⟩ := assignStep_pop [("color00", c1), ("color07", c2), ("color01", c3)] p3 "color02" "green" rfl (List.length_pos.1 (by omega))
  obtain ⟨c5, p5, hs5, hl5⟩ := assignStep_pop [("color00", c1), ("color07", c2), ("color01", c3), ("color02", c4)] p4 "color04" "blue" rfl (List.length_pos.1 (by omega))
  obtain ⟨c6, p6, hs6, hl6⟩ := assignStep_pop [("color00", c1), ("color07", c2), ("color01", c3), ("color02", c4), ("color04", c5)] p5 "color03" "yellow" rfl (List.length_pos.1 (by omega))
  obtain ⟨c7, p7, hs7, hl7⟩ := assignStep_pop [("color00", c1), ("color07", c2), ("color01", c3), ("color02", c4), ("color04", c5), ("color03", c6)] p6 "color05" "magenta" rfl (List.length_pos.1 (by omega))
  obtain ⟨c8, p8, hs8, hl8⟩ := assignStep_pop [("color00", c1), ("color07", c2), ("color01", c3), ("color02", c4), ("color04", c5), ("color03", c6), ("color05", c7)] p7 "color06" "cyan" rfl (List.length_pos.1 (by omega))
  obtain ⟨x9, hgp9⟩ := get_preference_best_eight [("color00", c1), ("color07", c2), ("color01", c3), ("color02", c4), ("color04", c5), ("color03", c6), ("color05", c7), ("color06", c8)] "light" (fun colour => colorSum colour) rfl c3 c4 c6 c5 c7 c8 rfl rfl rfl rfl rfl rfl
  obtain ⟨c9, p9, hs9⟩ := assignStep_reuse [("color00", c1), ("color07", c2), ("color01", c3), ("color02", c4), ("color04", c5), ("color03", c6), ("color05", c7), ("color06", c8)] p8 "color18" "light" rfl ⟨_, x9, rfl, hgp9⟩
  obtain ⟨c10, p10, hs10⟩ := assignStep_reuse [("color00", c1), ("color07", c2), ("color01", c3), ("color02", c4), ("color04", c5), ("color03", c6), ("color05", c7), ("color06", c8), ("color18", c9)] p9 "color19" "light" rfl ⟨.copy "color04", c5, rfl, rfl⟩
  obtain ⟨c11, p11, hs11⟩ := assignStep_reuse [("color00", c1), ("color07", c2), ("color01", c3), ("color02", c4), ("color04", c5), ("color03", c6), ("color05", c7), ("color06", c8), ("color18", c9), ("color19", c10)] p10 "color20" "light" rfl ⟨.copy "color07", c2, rfl, rfl⟩
  obtain ⟨c12, p12, hs12⟩ := assignStep_reuse [("color00", c1), ("color07", c2), ("color01", c3), ("color02", c4), ("color04", c5), ("color03", c6), ("color05", c7), ("color06", c8), ("color18", c9), ("color19", c10), ("color20", c11)] p11 "color21" "light" rfl ⟨.copy "color00", c1, rfl, rfl⟩
  obtain ⟨c13, p13, hs13⟩ := assignStep_reuse [("color00", c1), ("color07", c2), ("color01", c3), ("color02", c4), ("color04", c5), ("color03", c6), ("color05", c7), ("color06", c8), ("color18", c9), ("color19", c10), ("color20", c11), ("color21", c12)] p12 "color15" "light" rfl ⟨.copy "color01", c3, rfl, rfl⟩
  obtain ⟨c14, p14, hs14⟩ := assignStep_reuse [("color00", c1), ("color07", c2), ("color01", c3), ("color02", c4), ("color04", c5), ("color03", c6), ("color05", c7), ("color06", c8), ("color18", c9), ("color19", c10), ("color20", c11), ("color21", c12), ("color15", c13)] p13 "color16" "light" rfl ⟨.copy "color06", c8, rfl, rfl⟩
  obtain ⟨c15, p15, hs15⟩ := assignStep_reuse [("color00", c1), ("color07", c2), ("color01", c3), ("color02", c4), ("color04", c5), ("color03", c6), ("color05", c7), ("color06", c8), ("color18", c9), ("color19", c10), ("color20", c11), ("color21", c12), ("color15", c13), ("color16", c14)] p14 "color17" "light" rfl ⟨.copy "color02", c4, rfl, rfl⟩
  obtain ⟨x16, hgp16⟩ := get_preference_best_eight [("color00", c1), ("color07", c2), ("color01", c3), ("color02", c4), ("color04", c5), ("color03", c6), ("color05", c7), ("color06", c8), ("color18", c9), ("color19", c10), ("color20", c11), ("color21", c12), ("color15", c13), ("color16", c14), ("color17", c15)] "dark" (fun colour => -(colorSum colour)) rfl c3 c4 c6 c5 c7 c8 rfl rfl rfl rfl rfl rfl
  obtain ⟨c16, p16, hs16⟩ := assignStep_reuse [("color00", c1), ("color07", c2), ("color01", c3), ("color02", c4), ("color04", c5), ("color03", c6), ("color05", c7), ("color06", c8), ("color18", c9), ("color19", c10), ("color20", c11), ("color21", c12), ("color15", c13), ("color16", c14), ("color17", c15)] p15 "color08" "light" rfl ⟨_, x16, rfl, hgp16⟩
  refine ⟨[("color00", c1), ("color07", c2), ("color01", c3), ("color02", c4), ("color04", c5), ("color03", c6), ("color05", c7), ("color06", c8), ("color18", c9), ("color19", c10), ("color20", c11), ("color21", c12), ("color15", c13), ("color16", c14), ("color17", c15), ("color08", c16)], ?_, rfl⟩
  have hdef : assign_palette palette false =
      (assignLoop (([] : Designations), palette) (assignment_order "light")).map Prod.fst := rfl
  rw [hdef]
  simp only [assignment_order, reduceIte, assignLoop, hs1, hs2, hs3, hs4, hs5, hs6, hs7, hs8, hs9, hs10, hs11, hs12, hs13, hs14, hs15, hs16,
    List.cons_append, List.nil_append]
  rfl
  | true =>
  obtain ⟨c1, p1, hs1, hl1⟩ := assignStep_pop ([] : Designations) palette "color00" "dark" rfl (List.length_pos.1 (by omega))
  obtain ⟨c2, p2, hs2, hl2⟩ := assignStep_pop [("color00", c1)] p1 "color07" "light" rfl (List.length_pos.1 (by omega))
  obtain ⟨c3, p3, hs3, hl3⟩ := assignStep_pop [("color00", c1), ("color07", c2)] p2 "color01" "red" rfl (List.length_pos.1 (by omega))
  obtain ⟨c4, p4, hs4, hl4⟩ := assignStep_pop [("color00", c1), ("color07", c2), ("color01", c3)] p3 "color02" "green" rfl (List.length_pos.1 (by omega))
  obtain ⟨c5, p5, hs5, hl5⟩ := assignStep_pop [("color00", c1), ("color07", c2), ("color01", c3), ("color02", c4)] p4 "color04" "blue" rfl (List.length_pos.1 (by omega))
  obtain ⟨c6, p6, hs6, hl6⟩ := assignStep_pop [("color00", c1), ("color07", c2), ("color01", c3), ("color02", c4), ("color04", c5)] p5 "color03" "yellow" rfl (List.length_pos.1 (by omega))
  obtain ⟨c7, p7, hs7, hl7⟩ := assignStep_pop [("color00", c1), ("color07", c2), ("color01", c3), ("color02", c4), ("color04", c5), ("color03", c6)] p6 "color05" "magenta" rfl (List.length_pos.1 (by omega))
  obtain ⟨c8, p8, hs8, hl8⟩ := assignStep_pop [("color00", c1), ("color07", c2), ("color01", c3), ("color02", c4), ("color04", c5), ("color03", c6), ("color05", c7)] p7 "color06" "cyan" rfl (List.length_pos.1 (by omega))
  obtain ⟨x9, hgp9⟩ := get_preference_best_eight [("color00", c1), ("color07", c2), ("color01", c3), ("color02", c4), ("color04", c5), ("color03", c6), ("color05", c7), ("color06", c8)] "light" (fun colour => colorSum colour) rfl c3 c4 c6 c5 c7 c8 rfl rfl rfl rfl rfl rfl
  obtain ⟨c9, p9, hs9⟩ := assignStep_reuse [("color00", c1), ("color07", c2), ("color01", c3), ("color02", c4), ("color04", c5), ("color03", c6), ("color05", c7), ("color06", c8)] p8 "color18" "dark" rfl ⟨_, x9, rfl, hgp9⟩
  obtain ⟨c10, p10, hs10⟩ := assignStep_reuse [("color00", c1), ("color07", c2), ("color01", c3), ("color02", c4), ("color04", c5), ("color03", c6), ("color05", c7), ("color06", c8), ("color18", c9)] p9 "color19" "dark" rfl ⟨.copy "color04", c5, rfl, rfl⟩
  obtain ⟨c11, p11, hs11⟩ := assignStep_reuse [("color00", c1), ("color07", c2), ("color01", c3), ("color02", c4), ("color04", c5), ("color03", c6), ("color05", c7), ("color06", c8), ("color18", c9), ("color19", c10)] p10 "color20" "dark" rfl ⟨.copy "color07", c2, rfl, rfl⟩
  obtain ⟨c12, p12, hs12⟩ := assignStep_reuse [("color00", c1), ("color07", c2), ("color01", c3), ("color02", c4), ("color04", c5), ("color03", c6), ("color05", c7), ("color06", c8), ("color18", c9), ("color19", c10), ("color20", c11)] p11 "color21" "dark" rfl ⟨.copy "color00", c1, rfl, rfl⟩
  obtain ⟨c13, p13, hs13⟩ := assignStep_reuse [("color00", c1), ("color07", c2), ("color01", c3), ("color02", c4), ("color04", c5), ("color03", c6), ("color05", c7), ("color06", c8), ("color18", c9), ("color19", c10), ("color20", c11), ("color21", c12)] p12 "color15" "dark" rfl ⟨.copy "color01", c3, rfl, rfl⟩
  obtain ⟨c14, p14, hs14⟩ := assignStep_reuse [("color00", c1), ("color07", c2), ("color01", c3), ("color02", c4), ("color04", c5), ("color03", c6), ("color05", c7), ("color06", c8), ("color18", c9), ("color19", c10), ("color20", c11), ("color21", c12), ("color15", c13)] p13 "color16" "dark" rfl ⟨.copy "color06", c8, rfl, rfl⟩
  obtain ⟨c15, p15, hs15⟩ := assignStep_reuse [("color00", c1), ("color07", c2), ("color01", c3), ("color02", c4), ("color04", c5), ("color03", c6), ("color05", c7), ("color06", c8), ("color18", c9), ("color19", c10), ("color20", c11), ("color21", c12), ("color15", c13), ("color16", c14)] p14 "color17" "dark" rfl ⟨.copy "color02", c4, rfl, rfl⟩
  obtain ⟨x16, hgp16⟩ := get_preference_best_eight [("color00", c1), ("color07", c2), ("color01", c3), ("color02", c4), ("color04", c5), ("color03", c6), ("color05", c7), ("color06", c8), ("color18", c9), ("color19", c10), ("color20", c11), ("color21", c12), ("color15", c13), ("color16", c14), ("color17", c15)] "dark" (fun colour => -(colorSum colour)) rfl c3 c4 c6 c5 c7 c8 rfl rfl rfl rfl rfl rfl
  obtain ⟨c16, p16, hs16⟩ := assignStep_reuse [("color00", c1), ("color07", c2), ("color01", c3), ("color02", c4), ("color04", c5), ("color03", c6), ("color05", c7), ("color06", c8), ("color18", c9), ("color19", c10), ("color20", c11), ("color21", c12), ("color15", c13), ("color16", c14), ("color17", c15)] p15 "color08" "dark" rfl ⟨_, x16, rfl, hgp16⟩
  refine ⟨[("color00", c1), ("color07", c2), ("color01", c3), ("color02", c4), ("color04", c5), ("color03", c6), ("color05", c7), ("color06", c8), ("color18", c9), ("color19", c10), ("color20", c11), ("color21", c12), ("color15", c13), ("color16", c14), ("color17", c15), ("color08", c16)], ?_, rfl⟩
  have hdef : assign_palette palette true =
      (assignLoop (([] : Designations), palette) (assignment_order "dark")).map Prod.fst := rfl
  rw [hdef]
  simp only [assignment_order, reduceIte, assignLoop, hs1, hs2, hs3, hs4, hs5, hs6, hs7, hs8, hs9, hs10, hs11, hs12, hs13, hs14, hs15, hs16,
    List.cons_append, List.nil_append]
  rfl


/-- Bridging lemma promised above: `prominence` on the literal hue list
`["red"]` never raises and computes the red-channel prominence. -/
theorem prominence_red (c : Color) :
    prominence c ["red"] = some (min (c.1 - c.2.1) (c.1 - c.2.2)) := rfl

/-- As `prominence_red`, for the other five hue lists `assign_palette` uses. -/
theorem prominence_other_hues (c : Color) :
    prominence c ["green"] = some (min (c.2.1 - c.1) (c.2.1 - c.2.2)) ∧
    prominence c ["blue"] = some (min (c.2.2 - c.1) (c.2.2 - c.2.1)) ∧
    prominence c ["green", "blue"] = some (min (c.2.1 - c.1) (c.2.2 - c.1)) ∧
    prominence c ["red", "blue"] = some (min (c.1 - c.2.1) (c.2.2 - c.2.1)) ∧
    prominence c ["red", "green"] = some (min (c.1 - c.2.2) (c.2.1 - c.2.2)) :=
  ⟨rfl, rfl, rfl, rfl, rfl⟩

/-- Witness for C1's amended theorem at the spec's eight-colour palette. -/
theorem assign_palette_covers_catalog_witness :
    (assign_palette spec8 true).isSome = true := by
  obtain ⟨m, hm, _⟩ := assign_palette_covers_catalog spec8 true (by decide)
  rw [hm]
  rfl

/-- Counterexample to C1 as stated: on a palette of size 1 (≥ 1) the second
slot `color07` finds the palette exhausted, and `reuse_palette` has no entry
for it, so the method raises `KeyError("color07")` and returns no mapping at
all - assignment does not complete for every palette of size at least 1. -/
theorem assign_palette_singleton_fails :
    assign_palette [((0 : ℤ), (0 : ℤ), (0 : ℤ))] true = none ∧
    assign_palette [((0 : ℤ), (0 : ℤ), (0 : ℤ))] false = none :=
  ⟨by decide, by decide⟩

end Themerator
